import Mathlib

/-!
# Verification of the super-giggle portfolio data model

Shallow embedding of the repository's declarative data model
(`src/data/experience.py`, `src/data/skills.py`, `src/data/connections.py`)
and of the orchestration loop in `src/generate.py`, together with proofs of
the testable properties stated in the specification.

Python integers are modelled as `Int` (no overflow in CPython), Python
`Optional[int]` as `Option Int`, dictionaries as association lists in
declaration order, and exceptions as `Option` / `Except` results.
-/

namespace SuperGiggle

/-! ## Proficiency levels (`src/data/skills.py`, `ProficiencyLevel`) -/

/-- The four members of the `ProficiencyLevel` enum, in declaration order. -/
inductive ProficiencyLevel where
  | AWARENESS
  | APPLIED
  | PROFICIENT
  | EXPERT
deriving DecidableEq, Repr

/-- `min_score` field of each enum member. -/
def ProficiencyLevel.min_score : ProficiencyLevel → Int
  | .AWARENESS => 0
  | .APPLIED => 31
  | .PROFICIENT => 61
  | .EXPERT => 86

/-- `max_score` field of each enum member. -/
def ProficiencyLevel.max_score : ProficiencyLevel → Int
  | .AWARENESS => 30
  | .APPLIED => 60
  | .PROFICIENT => 85
  | .EXPERT => 100

/-- `description` field of each enum member. -/
def ProficiencyLevel.description : ProficiencyLevel → String
  | .AWARENESS => "Learning / Awareness"
  | .APPLIED => "Applied in Projects"
  | .PROFICIENT => "Proficient Daily Use"
  | .EXPERT => "Expert / Teaching Others"

instance : Fintype ProficiencyLevel where
  elems := {.AWARENESS, .APPLIED, .PROFICIENT, .EXPERT}
  complete := by intro x; cases x <;> decide

/-- Iteration order of `for level in cls` over the enum. -/
def proficiencyLevels : List ProficiencyLevel :=
  [.AWARENESS, .APPLIED, .PROFICIENT, .EXPERT]

/-- `ProficiencyLevel.from_score`: scan the members in declaration order and
return the first whose `[min_score, max_score]` range contains the score;
`none` models the `ValueError` raised when no member matches. -/
def ProficiencyLevel.from_score (score : Int) : Option ProficiencyLevel :=
  proficiencyLevels.find? fun level =>
    decide (level.min_score ≤ score ∧ score ≤ level.max_score)

/-- A score lies in the band of a given level. -/
def inBand (level : ProficiencyLevel) (score : Int) : Prop :=
  level.min_score ≤ score ∧ score ≤ level.max_score

instance (level : ProficiencyLevel) (score : Int) : Decidable (inBand level score) := by
  unfold inBand; infer_instance

/-- Per-score partition property: `from_score` succeeds and returns the unique
band containing the score. -/
def bandPartitionAt (score : Int) : Prop :=
  ∃ level, ProficiencyLevel.from_score score = some level ∧ inBand level score ∧
    ∀ other, inBand other score → other = level

instance (score : Int) : Decidable (bandPartitionAt score) := by
  unfold bandPartitionAt; infer_instance

lemma bandPartition_nat : ∀ n : Nat, n < 101 → bandPartitionAt (n : Int) := by decide

lemma bandPartition_int (s : Int) (h0 : 0 ≤ s) (h1 : s ≤ 100) : bandPartitionAt s := by
  have hn : s.toNat < 101 := by omega
  have := bandPartition_nat s.toNat hn
  rwa [Int.toNat_of_nonneg h0] at this

lemma from_score_none_of_out_of_range (s : Int) (h : s < 0 ∨ 100 < s) :
    ProficiencyLevel.from_score s = none := by
  rw [ProficiencyLevel.from_score, List.find?_eq_none]
  intro level _
  cases level <;> simp [ProficiencyLevel.min_score, ProficiencyLevel.max_score] <;> omega

/-- C2: the four bands (0-30, 31-60, 61-85, 86-100) partition `[0,100]` with
no gap and no overlap, `from_score` returns the containing band for every
in-range score, and the four sample scores map to the expected levels. -/
theorem bands_partition_and_from_score_correct :
    (∀ s : Int, 0 ≤ s → s ≤ 100 → bandPartitionAt s) ∧
    ProficiencyLevel.from_score 15 = some .AWARENESS ∧
    ProficiencyLevel.from_score 50 = some .APPLIED ∧
    ProficiencyLevel.from_score 75 = some .PROFICIENT ∧
    ProficiencyLevel.from_score 95 = some .EXPERT :=
  ⟨bandPartition_int, by decide, by decide, by decide, by decide⟩

/-- Witness for C2 at the concrete score 42. -/
theorem bands_partition_and_from_score_correct_witness : bandPartitionAt 42 :=
  bands_partition_and_from_score_correct.1 42 (by decide) (by decide)

/-- C3: `from_score` raises (returns `none`) exactly on scores outside
`[0,100]`, and returns a level on every score inside `[0,100]`. -/
theorem from_score_error_iff_out_of_range (s : Int) :
    ProficiencyLevel.from_score s = none ↔ (s < 0 ∨ 100 < s) := by
  constructor
  · intro hnone
    by_contra hcontra
    push_neg at hcontra
    obtain ⟨level, hsome, -⟩ := bandPartition_int s hcontra.1 hcontra.2
    rw [hnone] at hsome
    exact Option.noConfusion hsome
  · exact from_score_none_of_out_of_range s

/-- Witness for C3 at the concrete scores 150 and -10 (error) and 75 (ok). -/
theorem from_score_error_iff_out_of_range_witness :
    ProficiencyLevel.from_score 150 = none ∧
    ProficiencyLevel.from_score (-10) = none ∧
    ProficiencyLevel.from_score 75 ≠ none :=
  ⟨(from_score_error_iff_out_of_range 150).mpr (by decide),
   (from_score_error_iff_out_of_range (-10)).mpr (by decide),
   fun h => by
     have := (from_score_error_iff_out_of_range 75).mp h
     omega⟩

/-! ## Experience records (`src/data/experience.py`) -/

/-- The `Role` dataclass. `end_year` is `Optional[int]`, `None` for the
current role. -/
structure Role where
  company : String
  title : String
  start_year : Int
  end_year : Option Int
  color : String
  responsibilities : List String
deriving DecidableEq, Repr

/-- `Role.duration_years`. The Python body is
`end = self.end_year or date.today().year; return round(end - self.start_year, 1)`:
`or` tests truthiness, so a `None` or `0` end year is replaced by today's year,
and `round` on an integer difference is the identity. `today` is the year
returned by `date.today()`. -/
def Role.duration_years (r : Role) (today : Int) : Int :=
  (match r.end_year with
    | some e => if e = 0 then today else e
    | none => today) - r.start_year

/-- `Role.is_current`: `self.end_year is None`. -/
def Role.is_current (r : Role) : Bool :=
  r.end_year.isNone

/-- The `EXPERIENCE` timeline, transcribed in order. -/
def EXPERIENCE : List Role := [
  { company := "Blizzard Entertainment"
    title := "Specialist Game Master"
    start_year := 2006
    end_year := some 2008
    color := "#4A90E2"
    responsibilities := [
      "Customer support for World of Warcraft",
      "Community management and player relations",
      "Issue resolution and escalation handling",
      "Player behavior analysis and reporting"] },
  { company := "Jolt Online Gaming"
    title := "Community Manager"
    start_year := 2008
    end_year := some 2012
    color := "#FFD700"
    responsibilities := [
      "Community engagement and content moderation",
      "Event planning and coordination",
      "Content creation and social media management",
      "Analytics reporting on community metrics"] },
  { company := "Lionbridge"
    title := "Consultant"
    start_year := 2012
    end_year := some 2018
    color := "#87CEEB"
    responsibilities := [
      "Quality assurance testing",
      "Technical documentation",
      "Client communication and reporting",
      "Process improvement and automation"] },
  { company := "HBO Max"
    title := "Technical Support"
    start_year := 2018
    end_year := some 2021
    color := "#9B59B6"
    responsibilities := [
      "Technical troubleshooting for streaming platform",
      "Data analysis of support tickets and user issues",
      "Cross-functional collaboration with engineering teams",
      "Performance metrics tracking and reporting"] },
  { company := "HBO Max / WarnerBros"
    title := "Data Analyst"
    start_year := 2021
    end_year := some 2023
    color := "#FF8C00"
    responsibilities := [
      "Data pipeline development and maintenance",
      "Advanced analytics and reporting",
      "Stakeholder collaboration and insights delivery",
      "Machine learning model development"] },
  { company := "Schibsted"
    title := "Data Analyst"
    start_year := 2023
    end_year := some 2025
    color := "#32CD32"
    responsibilities := [
      "Analytics engineering with dbt",
      "Data pipeline orchestration with Flyte",
      "Advanced NLP and ML model development",
      "Cross-team data platform initiatives"] },
  { company := "Schibsted"
    title := "Data Scientist"
    start_year := 2025
    end_year := none
    color := "#FF69B4"
    responsibilities := [
      "Sequential NLP model development",
      "Recommender systems engineering",
      "Real-time data processing pipelines"] }]

/-- Adjacent-pair check over a list, mirroring the
`for i in range(len(xs) - 1)` loops of `tests/test_data_quality.py`. -/
def adjacentAll (p : Role → Role → Bool) : List Role → Bool
  | a :: b :: rest => p a b && adjacentAll p (b :: rest)
  | _ => true

/-- Chronological order between adjacent records
(`test_experience_chronological_order`): `start_year` is non-decreasing. -/
def chronOrdered (roles : List Role) : Bool :=
  adjacentAll (fun a b => decide (a.start_year ≤ b.start_year)) roles

/-- Strict non-overlap between adjacent records, exactly as asserted by
`test_no_year_overlaps`: whenever `end_year` is truthy it must be strictly
below the next record's `start_year`. -/
def strictNonOverlap (roles : List Role) : Bool :=
  adjacentAll
    (fun a b =>
      match a.end_year with
      | some e => if e = 0 then true else decide (e < b.start_year)
      | none => true)
    roles

/-- Weak non-overlap between adjacent records: whenever `end_year` is truthy
it is at most the next record's `start_year`, so consecutive roles may share
a boundary year but never a whole year of overlap. -/
def weakNonOverlap (roles : List Role) : Bool :=
  adjacentAll
    (fun a b =>
      match a.end_year with
      | some e => if e = 0 then true else decide (e ≤ b.start_year)
      | none => true)
    roles

/-- Exactly one record is current and it is the last one
(`test_only_one_current_role`, `test_current_role_is_most_recent`). -/
def oneCurrentAndLast (roles : List Role) : Bool :=
  match roles.filter (fun r => r.is_current) with
  | [r] => roles.getLast? == some r
  | _ => false

/-- The invariant exactly as claimed: chronological order, strict
non-overlap in the sense of `test_no_year_overlaps`, and a unique current
record sitting last. -/
def experienceInvariantStrict (roles : List Role) : Bool :=
  chronOrdered roles && strictNonOverlap roles && oneCurrentAndLast roles

/-- C1 counterexample: the claimed invariant fails on `EXPERIENCE`, because
adjacent roles share boundary years: the first record ends in 2008 and the
second starts in 2008, so the strict non-overlap assertion of
`test_no_year_overlaps` is violated. -/
theorem experience_invariant_counterexample :
    experienceInvariantStrict EXPERIENCE = false ∧
    strictNonOverlap EXPERIENCE = false ∧
    (EXPERIENCE.head?.map (fun r => r.end_year)) = some (some 2008) ∧
    ((EXPERIENCE.drop 1).head?.map (fun r => r.start_year)) = some 2008 := by
  decide

/-- C1 amended: the records are chronologically ordered and non-overlapping
up to shared boundary years (each truthy `end_year` is at most the next
record's `start_year`), and exactly one record is current (no `end_year`),
that record being last. -/
theorem experience_invariant_amended :
    chronOrdered EXPERIENCE = true ∧
    weakNonOverlap EXPERIENCE = true ∧
    oneCurrentAndLast EXPERIENCE = true := by
  decide

/-! ## Derived role properties (C5, C9) -/

/-- Modelled from the spec's words, for comparison with the implementation:
duration is the end year *if present* (otherwise the current year) minus the
start year, where "present" means the `Optional` field is not `None`. -/
def Role.duration_years_spec (r : Role) (today : Int) : Int :=
  (match r.end_year with
    | some e => e
    | none => today) - r.start_year

/-- A role whose `end_year` is the integer `0`: legal for the declared type
`Optional[int]`, and the input separating presence from truthiness. -/
def roleWithZeroEndYear : Role :=
  { company := "Example Corp"
    title := "Example Role"
    start_year := 2000
    end_year := some 0
    color := "#000000"
    responsibilities := ["Example duty"] }

/-- C5 counterexample: for a role with `end_year = 0` evaluated in the year
2025, the implementation substitutes today's year (duration 25) while the
claimed formula uses the present end year `0` (duration -2000), so the claim
fails as stated over all roles. -/
theorem duration_years_counterexample :
    roleWithZeroEndYear.duration_years 2025 = 25 ∧
    roleWithZeroEndYear.duration_years_spec 2025 = -2000 ∧
    roleWithZeroEndYear.duration_years 2025 ≠ roleWithZeroEndYear.duration_years_spec 2025 := by
  decide

/-- C5 amended: for every role whose `end_year` is not the integer `0`, the
derived duration equals (end year if present, otherwise the current year)
minus the start year; and for every role, `is_current` holds exactly when
`end_year` is absent. -/
theorem duration_years_correct_unless_zero (r : Role) (today : Int) :
    (r.end_year ≠ some 0 → r.duration_years today = r.duration_years_spec today) ∧
    (r.is_current = true ↔ r.end_year = none) := by
  refine ⟨?_, ?_⟩
  · intro h
    unfold Role.duration_years Role.duration_years_spec
    match he : r.end_year with
    | none => rfl
    | some e =>
      have hne : e ≠ 0 := fun h0 => h (h0 ▸ he)
      simp [hne]
  · unfold Role.is_current
    cases r.end_year <;> simp

/-- A concrete past role: the first record of the `EXPERIENCE` timeline. -/
def blizzardRole : Role :=
  { company := "Blizzard Entertainment"
    title := "Specialist Game Master"
    start_year := 2006
    end_year := some 2008
    color := "#4A90E2"
    responsibilities := [
      "Customer support for World of Warcraft",
      "Community management and player relations",
      "Issue resolution and escalation handling",
      "Player behavior analysis and reporting"] }

/-- Witness for the amended C5 at the first record of `EXPERIENCE` in 2025. -/
theorem duration_years_correct_unless_zero_witness :
    blizzardRole.duration_years 2025 = blizzardRole.duration_years_spec 2025 ∧
    (blizzardRole.is_current = true ↔ blizzardRole.end_year = none) :=
  ⟨(duration_years_correct_unless_zero blizzardRole 2025).1 (by decide),
   (duration_years_correct_unless_zero blizzardRole 2025).2⟩

/-- C9: a role whose `end_year` is the integer `0` is not current, yet its
duration is computed as if it were, substituting today's year, because the
implementation tests truthiness rather than absence; whenever today's year is
nonzero the two derivations disagree there, and they agree on every role
whose `end_year` is `None` or a nonzero integer. -/
theorem zero_end_year_truthiness (r : Role) (today : Int)
    (h : r.end_year = some 0) :
    r.is_current = false ∧
    r.duration_years today = today - r.start_year ∧
    (today ≠ 0 → r.duration_years today ≠ r.duration_years_spec today) ∧
    (∀ s : Role, (s.end_year = none ∨ ∃ e, s.end_year = some e ∧ e ≠ 0) →
      s.duration_years today = s.duration_years_spec today) := by
  refine ⟨?_, ?_, ?_, ?_⟩
  · unfold Role.is_current
    rw [h]
    rfl
  · unfold Role.duration_years
    rw [h]
    simp
  · intro htoday
    unfold Role.duration_years Role.duration_years_spec
    rw [h]
    simp
    omega
  · intro s hs
    unfold Role.duration_years Role.duration_years_spec
    rcases hs with hn | ⟨e, he, hne⟩
    · rw [hn]
    · rw [he]
      simp [hne]

/-- Witness for C9 at the concrete zero-end-year role in 2025. -/
theorem zero_end_year_truthiness_witness :
    roleWithZeroEndYear.is_current = false ∧
    roleWithZeroEndYear.duration_years 2025 = 25 ∧
    roleWithZeroEndYear.duration_years 2025 ≠ roleWithZeroEndYear.duration_years_spec 2025 ∧
    blizzardRole.duration_years 2025 = blizzardRole.duration_years_spec 2025 :=
  have h := zero_end_year_truthiness roleWithZeroEndYear 2025 (by decide)
  ⟨h.1, by rw [h.2.1]; decide, h.2.2.1 (by decide),
   h.2.2.2 blizzardRole (Or.inr ⟨2008, rfl, by decide⟩)⟩

/-! ## Skill proficiency data (`src/data/skills.py`) -/

/-- The `SkillProficiency` dataclass. `years_experience` is a Python float
holding an exact small value, modelled as a rational. -/
structure SkillProficiency where
  name : String
  score : Int
  years_experience : Rat
  last_used : String
  context : String
deriving DecidableEq, Repr

/-- The `SKILLS` dictionary, as an association list in declaration order. -/
def SKILLS : List (String × SkillProficiency) := [
  ("Python",
   { name := "Python", score := 84, years_experience := 7, last_used := "Current",
     context := "Daily use for data pipelines, ML models, automation scripts" }),
  ("SQL",
   { name := "SQL", score := 95, years_experience := 7, last_used := "Current",
     context := "Daily use for data analysis, dbt transformations, query optimization" }),
  ("NLP",
   { name := "NLP", score := 79, years_experience := 3, last_used := "Current",
     context := "Production models using Hugging Face, OpenAI, WhisperX for transcription" }),
  ("Data Visualization",
   { name := "Data Visualization", score := 90, years_experience := 6, last_used := "Current",
     context := "Tableau dashboards, Python (matplotlib, seaborn, plotly), executive reporting" }),
  ("Machine Learning",
   { name := "Machine Learning", score := 71, years_experience := 3, last_used := "Current",
     context := "Classification models, NLP pipelines, scikit-learn, transformers" }),
  ("Data Engineering",
   { name := "Data Engineering", score := 70, years_experience := 4, last_used := "Current",
     context := "Flyte orchestration, Docker, dbt, Snowflake, data pipeline design" })]

/-- The `SKILLS_BY_ROLE` dictionary: company to skill-name-to-percentage. -/
def SKILLS_BY_ROLE : List (String × List (String × Int)) := [
  ("Blizzard Entertainment",
   [("Data Analysis", 65), ("Scripting", 5), ("Big Data", 80),
    ("Data Visualization", 10), ("Creative/Communication", 100)]),
  ("Jolt Online Gaming",
   [("Data Analysis", 15), ("Scripting", 10), ("Big Data", 0),
    ("Data Visualization", 15), ("Creative/Communication", 63)]),
  ("Lionbridge",
   [("Data Analysis", 45), ("Scripting", 40), ("Big Data", 15),
    ("Data Visualization", 50), ("Creative/Communication", 50)]),
  ("HBO Max",
   [("Data Analysis", 90), ("Scripting", 65), ("Big Data", 90),
    ("Data Visualization", 80), ("Creative/Communication", 90)]),
  ("HBO Max / WarnerBros",
   [("Data Analysis", 95), ("Scripting", 90), ("Big Data", 85),
    ("Data Visualization", 90), ("Creative/Communication", 85)]),
  ("Schibsted",
   [("Data Analysis", 95), ("Scripting", 90), ("Big Data", 85),
    ("Data Visualization", 90), ("Creative/Communication", 75)])]

/-- C6: every skill score of `SKILLS` and every role-weight percentage of
`SKILLS_BY_ROLE` lies in the closed interval `[0, 100]`. -/
theorem scores_and_weights_in_range :
    (SKILLS.all fun p => decide (0 ≤ p.2.score ∧ p.2.score ≤ 100)) = true ∧
    (SKILLS_BY_ROLE.all fun c =>
      c.2.all fun sp => decide (0 ≤ sp.2 ∧ sp.2 ≤ 100)) = true := by
  decide

/-! ## Tool connections (`src/data/connections.py`) -/

/-- The `TOOL_CONNECTIONS` edge list, in declaration order. -/
def TOOL_CONNECTIONS : List (String × String) := [
  ("Python", "Pandas"),
  ("Python", "NLP"),
  ("Python", "SQL"),
  ("Python", "Data Engineering"),
  ("Python", "Machine Learning"),
  ("Python", "Matplotlib"),
  ("Python", "Plotly"),
  ("SQL", "Snowflake"),
  ("SQL", "DBT"),
  ("SQL", "Tableau"),
  ("SQL", "Data Analysis"),
  ("DBT", "Snowflake"),
  ("DBT", "Tableau"),
  ("DBT", "Data Engineering"),
  ("Pandas", "NLP"),
  ("Pandas", "Machine Learning"),
  ("Pandas", "Data Analysis"),
  ("NLP", "Hugging Face"),
  ("NLP", "OpenAI"),
  ("NLP", "WhisperX"),
  ("Machine Learning", "Hugging Face"),
  ("Tableau", "Data Visualization"),
  ("Matplotlib", "Data Visualization"),
  ("Plotly", "Data Visualization"),
  ("Pandas", "Matplotlib"),
  ("Pandas", "Plotly"),
  ("Snowflake", "Data Engineering"),
  ("Data Engineering", "Data Pipelines"),
  ("Data Engineering", "Flyte"),
  ("Docker", "Flyte"),
  ("Flyte", "NLP"),
  ("Flyte", "Data Pipelines"),
  ("Data Analysis", "Data Visualization"),
  ("Data Analysis", "Machine Learning")]

/-- C7: the edge list contains no self-loop and no exact duplicate pair. -/
theorem no_self_loops_no_duplicates :
    (TOOL_CONNECTIONS.all fun c => decide (c.1 ≠ c.2)) = true ∧
    TOOL_CONNECTIONS.Nodup := by
  constructor
  · decide
  · decide

/-- C8: every key of the `SKILLS` proficiency table occurs as an endpoint of
at least one edge of `TOOL_CONNECTIONS`. -/
theorem skills_appear_in_network :
    (SKILLS.all fun p =>
      TOOL_CONNECTIONS.any fun c => decide (c.1 = p.1) || decide (c.2 = p.1)) = true := by
  decide

/-- `dict.get(key, default)`: first value bound to the key, or the default.
Total for every key, like the Python method. -/
def dictGet {α : Type} (table : List (String × α)) (key : String) (dflt : α) : α :=
  match table.find? (fun p => p.1 == key) with
  | some p => p.2
  | none => dflt

/-- The `NODE_CATEGORIES` dictionary. -/
def NODE_CATEGORIES : List (String × String) := [
  ("Python", "language"),
  ("SQL", "language"),
  ("Data Analysis", "competency"),
  ("Data Visualization", "competency"),
  ("Data Engineering", "competency"),
  ("NLP", "competency"),
  ("Machine Learning", "competency"),
  ("Pandas", "data_tool"),
  ("Snowflake", "data_tool"),
  ("DBT", "data_tool"),
  ("Tableau", "viz_tool"),
  ("Matplotlib", "viz_tool"),
  ("Plotly", "viz_tool"),
  ("Hugging Face", "ml_tool"),
  ("OpenAI", "ml_tool"),
  ("WhisperX", "ml_tool"),
  ("Docker", "infrastructure"),
  ("Flyte", "infrastructure"),
  ("Data Pipelines", "infrastructure")]

/-- The `CATEGORY_COLORS` dictionary. -/
def CATEGORY_COLORS : List (String × String) := [
  ("language", "#FF6B6B"),
  ("competency", "#4ECDC4"),
  ("data_tool", "#45B7D1"),
  ("viz_tool", "#FFA07A"),
  ("ml_tool", "#98D8C8"),
  ("infrastructure", "#95E1D3")]

/-- The `NODE_SIZES` dictionary. -/
def NODE_SIZES : List (String × Int) := [
  ("Python", 84),
  ("SQL", 95),
  ("Data Analysis", 95),
  ("Data Visualization", 90),
  ("Data Engineering", 70),
  ("NLP", 79),
  ("Machine Learning", 71),
  ("Pandas", 80),
  ("Tableau", 70),
  ("Snowflake", 60),
  ("DBT", 50),
  ("Docker", 60),
  ("Flyte", 50),
  ("Hugging Face", 45),
  ("OpenAI", 45),
  ("WhisperX", 40),
  ("Matplotlib", 70),
  ("Plotly", 65),
  ("Data Pipelines", 70)]

/-- `get_node_color`: category of the node defaulting to `"competency"`,
then the category's color defaulting to `"#999999"`. -/
def get_node_color (node : String) : String :=
  dictGet CATEGORY_COLORS (dictGet NODE_CATEGORIES node "competency") "#999999"

/-- `get_node_size`: the node's size defaulting to `50`. -/
def get_node_size (node : String) : Int :=
  dictGet NODE_SIZES node 50

/-- C10: both lookups are total functions of the node string; for a node
absent from `NODE_CATEGORIES` the defaulted category is `"competency"`,
whose color is known, so `get_node_color` returns `"#4ECDC4"` and never
falls through to `"#999999"`; for a node absent from `NODE_SIZES`,
`get_node_size` returns 50. -/
theorem unknown_node_defaults (node : String)
    (hc : NODE_CATEGORIES.find? (fun p => p.1 == node) = none)
    (hs : NODE_SIZES.find? (fun p => p.1 == node) = none) :
    get_node_color node = "#4ECDC4" ∧ get_node_size node = 50 := by
  constructor
  · unfold get_node_color dictGet
    rw [hc]
    decide
  · unfold get_node_size dictGet
    rw [hs]

/-- Witness for C10 at the unknown node name `"Rust"`. -/
theorem unknown_node_defaults_witness :
    get_node_color "Rust" = "#4ECDC4" ∧ get_node_size "Rust" = 50 :=
  unknown_node_defaults "Rust" (by decide) (by decide)

/-! ## Orchestration (`src/generate.py`, `generate_all_visualizations`)

A chart builder is plotting glue whose only observable behaviour at the
orchestration level is returning a figure or raising an exception; it is
modelled as an `Except` value, with figures abstracted to an identifier. -/

/-- Outcome recorded in the `results` dictionary for one chart:
`{"status": "success", "figure": fig}` or `{"status": "error", "error": e}`. -/
inductive ChartResult where
  | success (figure : Nat)
  | error (msg : String)
deriving DecidableEq, Repr

/-- One iteration of the `try/except` loop body: run the builder, catching
any exception into an error result. -/
def runChart (builder : Except String Nat) : ChartResult :=
  match builder with
  | .ok figure => .success figure
  | .error e => .error e

/-- The `for name, func in visualizations` loop of
`generate_all_visualizations`: every chart is attempted in order, and a
failure is caught and recorded without aborting the rest. -/
def runCharts : List (String × Except String Nat) → List (String × ChartResult)
  | [] => []
  | (name, builder) :: rest =>
    match builder with
    | .ok figure => (name, .success figure) :: runCharts rest
    | .error e => (name, .error e) :: runCharts rest

/-- Whether a recorded result has status `"success"`. -/
def ChartResult.isSuccess : ChartResult → Bool
  | .success _ => true
  | .error _ => false

/-- Whether a builder returns normally. -/
def builderSucceeds : Except String Nat → Bool
  | .ok _ => true
  | .error _ => false

/-- The summary line `successful = sum(1 for r in results.values() if ...)`. -/
def countSuccessful (results : List (String × ChartResult)) : Nat :=
  (results.filter fun r => r.2.isSuccess).length

/-- Exit status of `main` when generating all charts: `main` never calls
`sys.exit` and `generate_all_visualizations` catches each per-chart
exception, so the interpreter exits with status 0 whatever the builders do. -/
def mainExitCode (charts : List (String × Except String Nat)) : Nat :=
  match runCharts charts with
  | _ => 0

lemma runCharts_eq_map (charts : List (String × Except String Nat)) :
    runCharts charts = charts.map fun c => (c.1, runChart c.2) := by
  induction charts with
  | nil => rfl
  | cons c rest ih =>
    obtain ⟨name, builder⟩ := c
    cases builder <;> simp [runCharts, runChart, ih]

lemma runCharts_length (charts : List (String × Except String Nat)) :
    (runCharts charts).length = charts.length := by
  rw [runCharts_eq_map, List.length_map]

lemma countSuccessful_runCharts (charts : List (String × Except String Nat)) :
    countSuccessful (runCharts charts) =
      (charts.filter fun c => builderSucceeds c.2).length := by
  induction charts with
  | nil => rfl
  | cons c rest ih =>
    obtain ⟨name, builder⟩ := c
    cases builder <;>
      simp [runCharts, countSuccessful, List.filter, ChartResult.isSuccess,
        builderSucceeds] <;>
      simpa [countSuccessful] using ih

/-- C4: for every list of chart builders and every chart position, the
orchestrator records exactly one result per chart — the failing builders as
error results and the others as successes — so a raising builder never
prevents the remaining charts from being attempted; the summary counts the
successes among all charts, and the process exit status is 0. -/
theorem orchestrator_isolates_failures (charts : List (String × Except String Nat))
    (i : Nat) (h : i < charts.length) :
    (runCharts charts).length = charts.length ∧
    (runCharts charts)[i]? = some ((charts.get ⟨i, h⟩).1, runChart (charts.get ⟨i, h⟩).2) ∧
    countSuccessful (runCharts charts) =
      (charts.filter fun c => builderSucceeds c.2).length ∧
    mainExitCode charts = 0 := by
  refine ⟨runCharts_length charts, ?_, countSuccessful_runCharts charts, rfl⟩
  rw [runCharts_eq_map, List.getElem?_map, List.getElem?_eq_getElem h]
  simp [List.get_eq_getElem]

/-- A concrete run whose middle chart raises. -/
def demoCharts : List (String × Except String Nat) :=
  [("Timeline", .ok 1), ("Radar Chart", .error "malformed data"), ("Heatmap", .ok 2)]

/-- Witness for C4: with a failing middle chart, the chart after it is still
attempted and recorded, two of three charts succeed, and the exit status
is 0. -/
theorem orchestrator_isolates_failures_witness :
    (runCharts demoCharts).length = demoCharts.length ∧
    (runCharts demoCharts)[2]? =
      some ((demoCharts.get ⟨2, by decide⟩).1, runChart (demoCharts.get ⟨2, by decide⟩).2) ∧
    countSuccessful (runCharts demoCharts) =
      (demoCharts.filter fun c => builderSucceeds c.2).length ∧
    mainExitCode demoCharts = 0 :=
  orchestrator_isolates_failures demoCharts 2 (by decide)

end SuperGiggle
